import Mathlib

/-!
Shallow embedding of the research-digest pipeline implemented by the
`ResearchMonitor` class and the top-level run in `main.py`.

Modelling conventions:
* Python exceptions that are caught per item are modelled by `Option`
  (`none` = the item raised and was skipped by `except: continue`).
* The outcome of `requests.get` plus document parsing is the environment
  of an adapter: `none` means the transport raised; otherwise a status
  code and a body, the body being `none` when the document parser
  (`ET.fromstring` or `BeautifulSoup`) raises on it and otherwise the
  list of elements the adapter iterates over.
* External collaborators (the Gemini client, the SMTP session) are
  explicit function parameters returning `Except`, where `Except.error`
  models a raised exception.
* Python `datetime` values are embedded as integers in a date-ordinal
  scale that preserves the ordering of calendar dates; `timedelta`
  subtraction becomes integer subtraction in that scale.
* String primitives of Python (`strip`, `replace`, slicing, `split`,
  `startswith`) are re-implemented over `List Char` so that every
  definition evaluates inside the kernel.
-/

/-! ## Python string primitives -/

/-- Python `str.strip()`: remove whitespace from both ends. -/
def pyStrip (s : String) : String :=
  ⟨((s.data.dropWhile Char.isWhitespace).reverse.dropWhile Char.isWhitespace).reverse⟩

/-- Python slicing `s[:n]`: the first `n` characters. -/
def pyTake (s : String) (n : Nat) : String :=
  ⟨s.data.take n⟩

/-- Core loop of Python `str.replace`: replace non-overlapping occurrences
of `pat` left to right; `fuel` bounds the recursion (the callers pass the
length of the scanned list, enough when `pat` is non-empty). -/
def pyReplaceAux (pat rep : List Char) : Nat → List Char → List Char
  | 0, s => s
  | _ + 1, [] => []
  | fuel + 1, c :: cs =>
    if pat.isPrefixOf (c :: cs) then
      rep ++ pyReplaceAux pat rep fuel ((c :: cs).drop pat.length)
    else
      c :: pyReplaceAux pat rep fuel cs

/-- Python `s.replace(pat, rep)` for a non-empty pattern (every call site
of `main.py` uses a non-empty pattern); for an empty pattern we return `s`
unchanged. -/
def pyReplace (s pat rep : String) : String :=
  if pat.data.isEmpty then s
  else ⟨pyReplaceAux pat.data rep.data s.data.length s.data⟩

/-- Python `s.startswith(p)`. -/
def pyStartsWith (s p : String) : Bool :=
  p.data.isPrefixOf s.data

/-- Helper for `pySplit`: accumulate the current field (reversed) while
scanning. -/
def pySplitAux (sep : Char) : List Char → List Char → List String
  | [], acc => [⟨acc.reverse⟩]
  | c :: cs, acc =>
    if c = sep then ⟨acc.reverse⟩ :: pySplitAux sep cs []
    else pySplitAux sep cs (c :: acc)

/-- Python `s.split(sep)` for a single-character separator; the result is
never empty, so indexing with `[-1]` is modelled by `List.getLastD`. -/
def pySplit (s : String) (sep : Char) : List String :=
  pySplitAux sep s.data []

/-- Python string interpolation of a value that may be `None`
(an f-string renders `None` as the text `None`). -/
def pyStrOpt : Option String → String
  | some s => s
  | none => "None"

/-! ## Dates

`datetime.strptime(text, <year-month-day format>)` followed by comparison
against `now - timedelta(days=days_back)`.  Dates are embedded as the
ordinal `y * 372 + (m - 1) * 31 + (d - 1)`, which is strictly monotone in
the lexicographic order of valid `(y, m, d)` triples, so every comparison
the code performs is preserved. -/

def allDigits (l : List Char) : Bool := l.all Char.isDigit

def digitsToNat (l : List Char) : Nat :=
  l.foldl (fun n c => 10 * n + (c.toNat - 48)) 0

def isLeapYear (y : Nat) : Bool :=
  (y % 4 = 0 && y % 100 ≠ 0) || y % 400 = 0

def daysInMonth (y m : Nat) : Nat :=
  if m = 2 then (if isLeapYear y then 29 else 28)
  else if m = 4 || m = 6 || m = 9 || m = 11 then 30
  else 31

/-- Python `datetime.strptime(s, <year-month-day format>)` reduced to the
`(year, month, day)` triple: four year digits, one or two month and day
digits, ranges validated as the `datetime` constructor does; `none` models
the `ValueError` the per-entry handler catches. -/
def strptimeYmd (s : String) : Option (Nat × Nat × Nat) :=
  match pySplit s '-' with
  | [ys, ms, ds] =>
    if allDigits ys.data && ys.data.length = 4
        && allDigits ms.data && decide (1 ≤ ms.data.length) && decide (ms.data.length ≤ 2)
        && allDigits ds.data && decide (1 ≤ ds.data.length) && decide (ds.data.length ≤ 2) then
      let y := digitsToNat ys.data
      let m := digitsToNat ms.data
      let d := digitsToNat ds.data
      if 1 ≤ m && m ≤ 12 && 1 ≤ d && d ≤ daysInMonth y m then some (y, m, d)
      else none
    else none
  | _ => none

/-- Order-preserving embedding of calendar dates into integers. -/
def dateOrd : Nat × Nat × Nat → Int
  | (y, m, d) => (y * 372 + (m - 1) * 31 + (d - 1) : Nat)

/-! ## Data model -/

/-- A paper record: the Python dict built by the adapters.  `none` models
Python `None` stored under a key; the `authors` key is never set by any
adapter in the source, which is modelled by its default `none`. -/
structure Paper where
  title : Option String
  summary : Option String
  link : Option String
  source : String
  authors : Option (List String) := none
deriving Repr, DecidableEq

/-- Outcome of one `requests.get` as an adapter observes it. -/
abbrev Fetched (α : Type) := Option (Nat × Option (List α))

/-! ## API-query adapter: `search_arxiv`

The query string and `max_results` only shape the request URL; the HTTP
interaction itself is the `resp` environment.  `days_back` is used to
compute `start_date = now - timedelta(days=days_back)`. -/

/-- One `atom:entry` element of the arXiv feed, as seen through the
lookups `search_arxiv` performs.  For each child element the outer
`Option` is element presence (`entry.find(...)` returning `None`) and the
inner `Option` is the element text (`ElementTree` gives `None` for an
empty element).  `primaryCategoryTerm` is `some t` exactly when the
`primary_category` element is present and carries a `term` attribute,
matching the combined guard in the code. -/
structure ArxivEntry where
  published : Option (Option String)
  title : Option (Option String)
  summary : Option (Option String)
  id : Option (Option String)
  primaryCategoryTerm : Option String
deriving Repr, DecidableEq

/-- Per-entry body of the loop in `search_arxiv`, with the
`try/except: continue` modelled by `Option`: date text retrieved and
parsed, the recency test, category defaulting, then field extraction
with strip and newline-to-space normalization. -/
def parseArxivEntry (start_date : Int) (e : ArxivEntry) : Option Paper :=
  match e.published with
  | none => none
  | some none => none
  | some (some published) =>
    match strptimeYmd (pyTake published 10) with
    | none => none
    | some ymd =>
      if dateOrd ymd ≥ start_date then
        let cat := match e.primaryCategoryTerm with
          | some t => t
          | none => "Econ"
        match e.title with
        | none | some none => none
        | some (some t) =>
          match e.summary with
          | none | some none => none
          | some (some s) =>
            match e.id with
            | none => none
            | some idText =>
              some { title := some (pyReplace (pyStrip t) "\n" " "),
                     summary := some (pyReplace (pyStrip s) "\n" " "),
                     link := idText,
                     source := "arXiv (" ++ cat ++ ")" }
      else none

/-- The `search_arxiv` method: empty list on transport failure, non-200
status, or document-parse failure; otherwise the per-entry loop. -/
def search_arxiv (now days_back : Int) (resp : Fetched ArxivEntry) : List Paper :=
  let start_date := now - days_back
  match resp with
  | none => []
  | some (status, body) =>
    if status = 200 then
      match body with
      | none => []
      | some entries => entries.filterMap (parseArxivEntry start_date)
    else []

/-! ## HTML-listing adapter: `search_ssrn`

The `query` and `days_back` parameters of the Python method are accepted
but unused (the request parameters are fixed); the request itself is the
`resp` environment. -/

/-- The `a.title` element of an SSRN listing item: its rendered text
(`Tag.text`, always a string) and its optional `href` attribute. -/
structure SsrnAnchor where
  text : String
  href : Option String
deriving Repr, DecidableEq

/-- The `div.abstract` element of an SSRN listing item. -/
structure SsrnAbstract where
  text : String
deriving Repr, DecidableEq

/-- One `div.paper` of the SSRN listing page; `none` when the
corresponding `find` returns `None` (a bs4 `Tag` is always truthy, so the
`if title_elem:` guard is a presence test). -/
structure SsrnDiv where
  titleElem : Option SsrnAnchor
  abstractElem : Option SsrnAbstract
deriving Repr, DecidableEq

/-- Per-item body of the loop in `search_ssrn`: require the title anchor,
default a missing `href` to the empty string, resolve site-relative
links, and fall back to the fixed placeholder when the abstract element
is absent. -/
def parseSsrnDiv (d : SsrnDiv) : Option Paper :=
  match d.titleElem with
  | none => none
  | some a =>
    let href := a.href.getD ""
    let link := if pyStartsWith href "/" then "https://papers.ssrn.com" ++ href else href
    some { title := some (pyStrip a.text),
           summary := some (match d.abstractElem with
             | some ab => pyTake (pyStrip ab.text) 500
             | none => "No abstract available"),
           link := some link,
           source := "SSRN" }

/-- The `search_ssrn` method: empty list on transport failure, non-200
status, or parse failure; otherwise the first `max_results` listing items
run through the per-item loop. -/
def search_ssrn (resp : Fetched SsrnDiv) (max_results : Nat := 50) : List Paper :=
  match resp with
  | none => []
  | some (status, body) =>
    if status = 200 then
      match body with
      | none => []
      | some divs => (divs.take max_results).filterMap parseSsrnDiv
    else []

/-! ## Feed-series adapter: `search_repec_working_papers` -/

/-- One `item` element of a RePEc RSS document, as seen through the
lookups the code performs; outer `Option` is element presence, inner
`Option` is the element text. -/
structure RssItem where
  title : Option (Option String)
  description : Option (Option String)
  link : Option (Option String)
deriving Repr, DecidableEq

/-- The five hard-coded working-paper series codes. -/
def working_paper_series : List String :=
  ["RePEc:nbr:nberwo", "RePEc:cpr:ceprdp", "RePEc:iza:izadps",
   "RePEc:wrk:warwec", "RePEc:oxf:wpaper"]

/-- The `source` tag of a RePEc record:
`Working Paper (<last colon-separated component of the series code>)`. -/
def repecSource (series_code : String) : String :=
  "Working Paper (" ++ (pySplit series_code ':').getLastD "" ++ ")"

/-- Per-item body of the inner loop of `search_repec_working_papers`.
A missing `title` or `link` element makes the `.text` access raise
(skip); a `description` element that is present with `None` text makes
the slice raise (skip); an absent `description` element takes the
placeholder branch of the conditional expression. -/
def parseRepecItem (series_code : String) (it : RssItem) : Option Paper :=
  match it.title, it.description, it.link with
  | none, _, _ => none
  | some _, some none, _ => none
  | some _, _, none => none
  | some titleText, none, some linkText =>
    some { title := titleText, summary := some "No abstract",
           link := linkText, source := repecSource series_code }
  | some titleText, some (some d0), some linkText =>
    some { title := titleText, summary := some (pyTake d0 500),
           link := linkText, source := repecSource series_code }

/-- One iteration of the series loop of `search_repec_working_papers`:
the per-series `try/except` turns a raised transport or document-parse
error into no contribution, a non-200 status contributes nothing, and
otherwise the first 10 items run through the per-item loop. -/
def repecSeriesPapers (fetch : String → Fetched RssItem) (series_code : String) : List Paper :=
  match fetch series_code with
  | none => []
  | some (status, body) =>
    if status = 200 then
      match body with
      | none => []
      | some items => (items.take 10).filterMap (parseRepecItem series_code)
    else []

/-- The `search_repec_working_papers` method: the series loop appends
each series contribution to one list; the `days_back` parameter is
accepted but never used. -/
def search_repec_working_papers (fetch : String → Fetched RssItem) (days_back : Int) : List Paper :=
  working_paper_series.flatMap (repecSeriesPapers fetch)

/-! ## Digest composer: `generate_summary` -/

/-- One numbered entry of the listing built by `generate_summary`
(the part between the surrounding newlines). -/
def entryLine (i : Nat) (p : Paper) : String :=
  toString i ++ ". [" ++ p.source ++ "] " ++ pyStrOpt p.title
    ++ "\n   Link: " ++ pyStrOpt p.link

/-- The `papers_text` accumulation loop of `generate_summary`:
enumerate the first 40 papers from 1 and append one block per paper. -/
def papersText (papers : List Paper) : String :=
  ((papers.take 40).enumFrom 1).foldl
    (fun acc ip =>
      acc ++ "\n" ++ toString ip.1 ++ ". [" ++ ip.2.source ++ "] "
        ++ pyStrOpt ip.2.title ++ "\n   Link: " ++ pyStrOpt ip.2.link ++ "\n")
    ""

/-- The fixed instructional template of `generate_summary`, with the
research focus and the rendered listing interpolated. -/
def promptTemplate (research_focus papers_text : String) : String :=
  "\n        You are an expert PhD-level economist.\n        Review this list of new papers.\n        \n        MY RESEARCH FOCUS: "
    ++ research_focus
    ++ "\n        \n        INSTRUCTIONS:\n        1. FILTER: STRICTLY ignore Physics/CS/Bio papers. Only keep Economics.\n        2. RANK: Select the top 5 papers most relevant to Heterodox/Development/India.\n        3. SUMMARIZE: Write a 2-sentence technical summary for each of the top 5.\n        4. CATEGORIZE: Group other relevant economics papers by sub-field.\n        \n        LIST:\n        "
    ++ papers_text
    ++ "\n        "

/-- The `generate_summary` method; the Gemini call is the collaborator
`llm`, with `Except.error e` modelling a raised exception whose message
is `e`. -/
def generate_summary (llm : String → Except String String)
    (papers : List Paper) (research_focus : String) : String :=
  if papers.isEmpty then "No new papers found."
  else
    match llm (promptTemplate research_focus (papersText papers)) with
    | Except.ok t => t
    | Except.error e => "Error with Gemini: " ++ e

/-! ## Notifier: `send_email` -/

/-- The body transform of `send_email`:
newline to `<br>`, then every `**` to `<b>`, then every remaining `**`
to the closing tag. -/
def emailBodyHtml (body : String) : String :=
  pyReplace (pyReplace (pyReplace body "\n" "<br>") "**" "<b>") "**" "</b>"

/-- The HTML document `send_email` builds; the formatted current date is
the `dateLong` parameter. -/
def emailHtml (dateLong body : String) : String :=
  "\n            <html><body style=\"font-family: Arial, sans-serif;\">\n            <h2 style=\"color:#2c3e50;\">📅 Weekly Economics Digest</h2>\n            <p style=\"color:#7f8c8d;\">"
    ++ dateLong
    ++ "</p>\n            <div style=\"background-color:#f9f9f9; padding:15px; border-radius:5px;\">\n            "
    ++ emailBodyHtml body
    ++ "\n            </div>\n            <p style=\"font-size:12px; color:#999;\">Sources: arXiv, SSRN, RePEc Working Papers</p>\n            </body></html>\n            "

/-- The `send_email` method: build the message, deliver through the SMTP
collaborator, return `true` on success; any raised exception (auth,
connection, transport) is caught and `false` returned. -/
def send_email (deliver : String → String → Except String Unit)
    (dateLong subject body : String) : Bool :=
  match deliver subject (emailHtml dateLong body) with
  | Except.ok _ => true
  | Except.error _ => false

/-! ## Top-level run -/

/-- The fixed research focus of the top-level run. -/
def FOCUS : String :=
  "Heterodox economics, development macroeconomics, and Indian political economy."

/-- The fixed notice sent when the aggregate is empty. -/
def noPapersMsg : String :=
  "No new papers matched your criteria this week. This is normal during holidays. The script is running correctly."

/-- Environment of one top-level run: the outcomes of every external
interaction the script performs, plus the formatted current-date strings
(`dateLong` from the long format used in the HTML, `dateShort` from the
short format used in subjects). -/
structure RunEnv where
  now : Int
  dateLong : String
  dateShort : String
  arxivResp : Fetched ArxivEntry
  ssrnResp : Fetched SsrnDiv
  repecFetch : String → Fetched RssItem
  llm : String → Except String String
  deliver : String → String → Except String Unit

/-- Observable outcome of one top-level run. -/
structure RunResult where
  exitCode : Nat
  emailSubject : Option String
  emailBody : Option String
  emailSent : Option Bool

/-- The aggregate `all_papers` list of the top-level run: the three
adapter outputs concatenated in call order. -/
def allPapers (env : RunEnv) : List Paper :=
  search_arxiv env.now 7 env.arxivResp
    ++ search_ssrn env.ssrnResp
    ++ search_repec_working_papers env.repecFetch 7

/-- The top-level run of `main.py`: exit 1 when a secret is missing;
otherwise aggregate, then either compose a digest and send it, or send
the fixed no-papers notice; the process reaches the end of the script
(exit status 0) in both branches whatever `send_email` returns. -/
def main_run (secretsPresent : Bool) (env : RunEnv) : RunResult :=
  if !secretsPresent then
    { exitCode := 1, emailSubject := none, emailBody := none, emailSent := none }
  else
    let all_papers := allPapers env
    if !all_papers.isEmpty then
      let digest := generate_summary env.llm all_papers FOCUS
      let subject := "Weekly Econ Research: " ++ env.dateShort
      let sent := send_email env.deliver env.dateLong subject digest
      { exitCode := 0, emailSubject := some subject,
        emailBody := some digest, emailSent := some sent }
    else
      let subject := "Weekly Econ: No New Papers (" ++ env.dateShort ++ ")"
      let sent := send_email env.deliver env.dateLong subject noPapersMsg
      { exitCode := 0, emailSubject := some subject,
        emailBody := some noPapersMsg, emailSent := some sent }

/-! ## Helper lemmas -/

theorem data_append (a b : String) : (a ++ b).data = a.data ++ b.data := by
  cases a; cases b; rfl

theorem append_ne_empty_left (a b : String) (h : a ≠ "") : a ++ b ≠ "" := by
  intro he
  apply h
  have hd := congrArg String.data he
  rw [data_append] at hd
  have : a.data = [] := (List.append_eq_nil.mp hd).1
  cases a
  simp_all

/-- Concatenation of a list of strings (the repeated `+=` of the Python
loops). -/
def concatStrings : List String → String
  | [] => ""
  | s :: rest => s ++ concatStrings rest

/-- Join a list of strings with a separator between consecutive
elements. -/
def sepJoin (sep : String) : List String → String
  | [] => ""
  | [l] => l
  | l :: ls => l ++ sep ++ sepJoin sep ls

/-! ## Claim C2 -/

/-- Claim C2 (confirmed): for every adapter, a raised transport error, a
non-success HTTP status, or a document-parse failure yields the empty
result sequence (the adapter, modelled as a total function, lets no
exception escape), and an individual entry whose parsing raises is
skipped while the remaining entries are still parsed (for the
HTML-listing and feed-series adapters, among the entries selected by
their caps). -/
theorem C2_adapter_error_isolation :
    (∀ now db : Int, search_arxiv now db none = [])
    ∧ (∀ (now db : Int) (status : Nat) body, status ≠ 200 →
        search_arxiv now db (some (status, body)) = [])
    ∧ (∀ now db : Int, search_arxiv now db (some (200, none)) = [])
    ∧ (∀ (now db : Int) (l1 : List ArxivEntry) (bad : ArxivEntry) (l2 : List ArxivEntry),
        parseArxivEntry (now - db) bad = none →
        search_arxiv now db (some (200, some (l1 ++ bad :: l2)))
          = search_arxiv now db (some (200, some (l1 ++ l2))))
    ∧ (∀ mr : Nat, search_ssrn none mr = [])
    ∧ (∀ (mr : Nat) (status : Nat) body, status ≠ 200 →
        search_ssrn (some (status, body)) mr = [])
    ∧ (∀ mr : Nat, search_ssrn (some (200, none)) mr = [])
    ∧ (∀ (mr : Nat) (l1 : List SsrnDiv) (bad : SsrnDiv) (l2 : List SsrnDiv),
        parseSsrnDiv bad = none → (l1 ++ bad :: l2).length ≤ mr →
        search_ssrn (some (200, some (l1 ++ bad :: l2))) mr
          = search_ssrn (some (200, some (l1 ++ l2))) mr)
    ∧ (∀ (fetch : String → Fetched RssItem) (code : String), fetch code = none →
        repecSeriesPapers fetch code = [])
    ∧ (∀ (fetch : String → Fetched RssItem) (code : String) (status : Nat) body,
        fetch code = some (status, body) → status ≠ 200 →
        repecSeriesPapers fetch code = [])
    ∧ (∀ (fetch : String → Fetched RssItem) (code : String),
        fetch code = some (200, none) → repecSeriesPapers fetch code = [])
    ∧ (∀ (code : String) (l1 : List RssItem) (bad : RssItem) (l2 : List RssItem),
        parseRepecItem code bad = none → (l1 ++ bad :: l2).length ≤ 10 →
        repecSeriesPapers (fun _ => some (200, some (l1 ++ bad :: l2))) code
          = repecSeriesPapers (fun _ => some (200, some (l1 ++ l2))) code) := by
  refine ⟨fun _ _ => rfl, ?_, fun _ _ => rfl, ?_, fun _ => rfl, ?_, fun _ => rfl, ?_, ?_, ?_, ?_, ?_⟩
  · intro now db status body h
    simp [search_arxiv, h]
  · intro now db l1 bad l2 h
    simp [search_arxiv, List.filterMap_append, List.filterMap_cons, h]
  · intro mr status body h
    simp [search_ssrn, h]
  · intro mr l1 bad l2 hbad hlen
    have hlen2 : (l1 ++ l2).length ≤ mr := by
      refine le_trans ?_ hlen
      simp
    simp [search_ssrn, List.take_of_length_le hlen, List.take_of_length_le hlen2,
      List.filterMap_append, List.filterMap_cons, hbad]
  · intro fetch code h
    simp [repecSeriesPapers, h]
  · intro fetch code status body h hs
    simp [repecSeriesPapers, h, hs]
  · intro fetch code h
    simp [repecSeriesPapers, h]
  · intro code l1 bad l2 hbad hlen
    have hlen2 : (l1 ++ l2).length ≤ 10 := by
      refine le_trans ?_ hlen
      simp
    simp [repecSeriesPapers, List.take_of_length_le hlen, List.take_of_length_le hlen2,
      List.filterMap_append, List.filterMap_cons, hbad]

/-- Witness for C2: each hypothesis-bearing clause instantiated at a
concrete input. -/
theorem C2_adapter_error_isolation_witness :
    search_arxiv 0 7 (some (404, some [])) = []
    ∧ search_ssrn (some (500, none)) 50 = []
    ∧ search_arxiv 0 7 (some (200, some [{ published := none, title := none,
                                           summary := none, id := none,
                                           primaryCategoryTerm := none }]))
        = search_arxiv 0 7 (some (200, some []))
    ∧ search_ssrn (some (200, some [{ titleElem := none, abstractElem := none }])) 50
        = search_ssrn (some (200, some [])) 50
    ∧ repecSeriesPapers (fun _ => some (404, some [])) "RePEc:nbr:nberwo" = []
    ∧ repecSeriesPapers (fun _ => some (200, some [({ title := none, description := none,
                                                      link := none } : RssItem)])) "RePEc:nbr:nberwo"
        = repecSeriesPapers (fun _ => some (200, some ([] : List RssItem))) "RePEc:nbr:nberwo" := by
  refine ⟨?_, ?_, ?_, ?_, ?_, ?_⟩
  · exact C2_adapter_error_isolation.2.1 0 7 404 (some []) (by decide)
  · exact C2_adapter_error_isolation.2.2.2.2.2.1 50 500 none (by decide)
  · exact C2_adapter_error_isolation.2.2.2.1 0 7 [] _ [] rfl
  · exact C2_adapter_error_isolation.2.2.2.2.2.2.2.1 50 [] _ [] rfl (by decide)
  · exact C2_adapter_error_isolation.2.2.2.2.2.2.2.2.2.1
      (fun _ => some (404, some [])) "RePEc:nbr:nberwo" 404 (some []) rfl (by decide)
  · exact C2_adapter_error_isolation.2.2.2.2.2.2.2.2.2.2.2 "RePEc:nbr:nberwo" [] _ [] rfl (by decide)

/-! ## Claim C3 -/

/-- Claim C3 (confirmed): the feed-series adapter ignores its recency
window (its output is the same for any two values of `days_back`), and
each series contributes at most 10 records, computed from at most the
first 10 items of that series feed (two feeds agreeing on their first 10
items contribute identically). -/
theorem C3_repec_window_unused_take10 :
    (∀ (fetch : String → Fetched RssItem) (d1 d2 : Int),
        search_repec_working_papers fetch d1 = search_repec_working_papers fetch d2)
    ∧ (∀ (fetch : String → Fetched RssItem) (code : String),
        (repecSeriesPapers fetch code).length ≤ 10)
    ∧ (∀ (code : String) (status : Nat) (items itemsB : List RssItem),
        items.take 10 = itemsB.take 10 →
        repecSeriesPapers (fun _ => some (status, some items)) code
          = repecSeriesPapers (fun _ => some (status, some itemsB)) code)
    ∧ (∀ (fetch : String → Fetched RssItem) (d : Int),
        search_repec_working_papers fetch d
          = working_paper_series.flatMap (repecSeriesPapers fetch)) := by
  refine ⟨fun _ _ _ => rfl, ?_, ?_, fun _ _ => rfl⟩
  · intro fetch code
    unfold repecSeriesPapers
    match fetch code with
    | none => simp
    | some (status, body) =>
      by_cases hs : status = 200
      · subst hs
        match body with
        | none => simp
        | some items =>
          simp only [if_pos rfl]
          exact le_trans (List.length_filterMap_le _ _) (List.length_take_le _ _)
      · simp [hs]
  · intro code status items itemsB h
    unfold repecSeriesPapers
    by_cases hs : status = 200
    · subst hs
      simp [h]
    · simp [hs]

/-- Witness for C3: the take-10 determinism clause at two concrete feeds
agreeing on their first 10 items (an 11-item feed and its 10-item
prefix). -/
theorem C3_repec_window_unused_take10_witness :
    repecSeriesPapers
        (fun _ => some (200, some (List.replicate 11 ({ title := some (some "T"),
                                                        description := none,
                                                        link := some (some "L") } : RssItem))))
        "RePEc:nbr:nberwo"
      = repecSeriesPapers
        (fun _ => some (200, some (List.replicate 10 ({ title := some (some "T"),
                                                        description := none,
                                                        link := some (some "L") } : RssItem))))
        "RePEc:nbr:nberwo" := by
  exact C3_repec_window_unused_take10.2.2.1 "RePEc:nbr:nberwo" 200 _ _ (by decide)

/-! ## Claim C4 -/

/-- Claim C4 (confirmed): on the empty input sequence `generate_summary`
returns exactly the fixed sentinel, for every summarization collaborator
(so the collaborator is never consulted): the result does not depend on
`llm` at all. -/
theorem C4_empty_short_circuit :
    ∀ (llm llmB : String → Except String String) (focus : String),
      generate_summary llm [] focus = "No new papers found."
      ∧ generate_summary llm [] focus = generate_summary llmB [] focus := by
  intro llm llmB focus
  exact ⟨rfl, rfl⟩

/-! ## Claim C8 -/

/-- Claim C8 (code bug): the notifier body transform converts newlines to
line-break tags, but the chained replacements turn every `**` delimiter
into an opening `<b>` tag; the subsequent replacement targeting `**`
with the closing tag finds no occurrence left, so a markdown-bold span
never receives a matched closing tag.  At the failing input
`a\nb **bold** c` the code produces `a<br>b <b>bold<b> c`, not the
matched pair `<b>bold</b>` the claim describes. -/
theorem C8_bold_never_closed :
    emailBodyHtml "a\nb **bold** c" = "a<br>b <b>bold<b> c" := rfl

/-! ## Claim C9 -/

/-- Claim C9 (confirmed): a mail-delivery failure (the SMTP collaborator
raising) is caught by `send_email` and reported as `false` to the caller,
and the top-level run reaches the end of the script with exit status 0
under every environment — in particular when delivery fails. -/
theorem C9_delivery_failure_nonfatal :
    (∀ (err dateLong subject body : String),
        send_email (fun _ _ => Except.error err) dateLong subject body = false)
    ∧ (∀ env : RunEnv, (main_run true env).exitCode = 0)
    ∧ (∀ (env : RunEnv) (err : String),
        env.deliver = (fun _ _ => Except.error err) →
        (main_run true env).emailSent = some false
        ∧ (main_run true env).exitCode = 0) := by
  refine ⟨fun _ _ _ _ => rfl, ?_, ?_⟩
  · intro env
    unfold main_run
    split
    · simp_all
    · dsimp only
      split <;> rfl
  · intro env err h
    unfold main_run
    split
    · simp_all
    · dsimp only
      split <;> simp [send_email, h]

/-- Witness for C9: the delivery-failure clause at a concrete environment
whose SMTP collaborator always raises. -/
theorem C9_delivery_failure_nonfatal_witness :
    (main_run true { now := 0, dateLong := "May 03, 2024", dateShort := "May 03",
                     arxivResp := none, ssrnResp := none, repecFetch := fun _ => none,
                     llm := fun _ => Except.ok "digest",
                     deliver := fun _ _ => Except.error "auth failed" }).emailSent = some false := by
  exact (C9_delivery_failure_nonfatal.2.2
    { now := 0, dateLong := "May 03, 2024", dateShort := "May 03",
      arxivResp := none, ssrnResp := none, repecFetch := fun _ => none,
      llm := fun _ => Except.ok "digest",
      deliver := fun _ _ => Except.error "auth failed" } "auth failed" rfl).1

/-! ## Claim C5 -/

/-- Spec-side rendering: the numbered entry lines for the first
`min(L, 40)` papers, numbered consecutively from 1. -/
def entryLines (papers : List Paper) : List String :=
  ((papers.take 40).enumFrom 1).map (fun ip => entryLine ip.1 ip.2)

theorem papersText_loop (l : List (Nat × Paper)) (acc : String) :
    l.foldl (fun acc ip =>
      acc ++ "\n" ++ toString ip.1 ++ ". [" ++ ip.2.source ++ "] "
        ++ pyStrOpt ip.2.title ++ "\n   Link: " ++ pyStrOpt ip.2.link ++ "\n") acc
      = acc ++ concatStrings (l.map (fun ip => "\n" ++ entryLine ip.1 ip.2 ++ "\n")) := by
  induction l generalizing acc with
  | nil => simp [concatStrings, String.append_empty]
  | cons a t ih =>
    rw [List.foldl_cons, ih]
    simp [concatStrings, entryLine, String.append_assoc]

theorem newline_pair (x : String) : ("\n" : String) ++ ("\n" ++ x) = "\n\n" ++ x := by
  rw [← String.append_assoc]
  rfl

theorem concat_wrap (lines : List String) (h : lines ≠ []) :
    concatStrings (lines.map (fun s => "\n" ++ s ++ "\n"))
      = "\n" ++ sepJoin "\n\n" lines ++ "\n" := by
  induction lines with
  | nil => exact absurd rfl h
  | cons a t ih =>
    cases t with
    | nil => simp [concatStrings, sepJoin, String.append_empty, String.append_assoc]
    | cons b t2 =>
      rw [List.map_cons, concatStrings, ih (by simp)]
      simp only [sepJoin]
      simp [String.append_assoc]
      rw [newline_pair]

/-- Claim C5 (confirmed): on a non-empty input of length `L` the listing
built by `generate_summary` is exactly the `min(L, 40)` numbered entry
lines — numbered consecutively from 1 by construction of `entryLines` —
each rendered by the fixed per-entry template and joined by newline
characters (one trailing and one leading newline around each junction,
plus one leading and one trailing newline framing the listing). -/
theorem C5_rendering (papers : List Paper) (h : papers ≠ []) :
    papersText papers = "\n" ++ sepJoin "\n\n" (entryLines papers) ++ "\n"
    ∧ (entryLines papers).length = min papers.length 40 := by
  have hlen : (entryLines papers).length = min papers.length 40 := by
    simp [entryLines, List.enumFrom_length, List.length_take, Nat.min_comm]
  have hpos : 0 < papers.length := List.length_pos.mpr h
  have hne : entryLines papers ≠ [] := by
    intro h0
    have h1 : (entryLines papers).length = 0 := by rw [h0]; rfl
    rw [hlen] at h1
    have h3 : 0 < min papers.length 40 := lt_min hpos (by norm_num)
    exact (Nat.pos_iff_ne_zero.mp h3) h1
  have hform : ((papers.take 40).enumFrom 1).map (fun ip => "\n" ++ entryLine ip.1 ip.2 ++ "\n")
      = (entryLines papers).map (fun s => "\n" ++ s ++ "\n") := by
    unfold entryLines
    rw [List.map_map]
    rfl
  have hmain : papersText papers
      = concatStrings (((papers.take 40).enumFrom 1).map
          (fun ip => "\n" ++ entryLine ip.1 ip.2 ++ "\n")) := by
    unfold papersText
    rw [papersText_loop]
    exact String.empty_append _
  refine ⟨?_, hlen⟩
  rw [hmain, hform, concat_wrap _ hne]

/-- Witness for C5: the rendering law at a concrete two-paper list. -/
theorem C5_rendering_witness :
    ([{ title := some "T1", summary := some "s1", link := some "L1", source := "SSRN" },
      { title := some "T2", summary := some "s2", link := some "L2", source := "SSRN" }]
        : List Paper) ≠ []
    ∧ (papersText [{ title := some "T1", summary := some "s1", link := some "L1", source := "SSRN" },
                   { title := some "T2", summary := some "s2", link := some "L2", source := "SSRN" }]
        = "\n" ++ sepJoin "\n\n"
            (entryLines [{ title := some "T1", summary := some "s1", link := some "L1", source := "SSRN" },
                         { title := some "T2", summary := some "s2", link := some "L2", source := "SSRN" }]) ++ "\n"
      ∧ (entryLines [{ title := some "T1", summary := some "s1", link := some "L1", source := "SSRN" },
                     { title := some "T2", summary := some "s2", link := some "L2", source := "SSRN" }]).length
          = min ([{ title := some "T1", summary := some "s1", link := some "L1", source := "SSRN" },
                  { title := some "T2", summary := some "s2", link := some "L2", source := "SSRN" }]
              : List Paper).length 40) :=
  ⟨by simp, C5_rendering _ (by simp)⟩

/-! ## Inversion lemmas for the per-item parsers -/

theorem parseArxivEntry_fields {sd : Int} {e : ArxivEntry} {p : Paper}
    (h : parseArxivEntry sd e = some p) :
    p.source ≠ "" ∧ p.title ≠ none ∧ p.summary ≠ none := by
  unfold parseArxivEntry at h
  iterate 7 (all_goals try split at h)
  all_goals try exact Option.noConfusion h
  all_goals
    injection h with h2
    subst h2
    refine ⟨?_, by simp, by simp⟩
    exact append_ne_empty_left _ _ (append_ne_empty_left _ _ (by decide))

theorem parseSsrnDiv_fields {d : SsrnDiv} {p : Paper} (h : parseSsrnDiv d = some p) :
    p.source = "SSRN" ∧ p.title ≠ none ∧ p.summary ≠ none ∧ p.link ≠ none
    ∧ p.authors = none
    ∧ p.summary = some (match d.abstractElem with
        | some ab => pyTake (pyStrip ab.text) 500
        | none => "No abstract available") := by
  unfold parseSsrnDiv at h
  split at h
  · exact Option.noConfusion h
  · dsimp only at h
    injection h with h2
    subst h2
    exact ⟨rfl, by simp, by simp, by simp, rfl, rfl⟩

theorem parseRepecItem_fields {code : String} {it : RssItem} {p : Paper}
    (h : parseRepecItem code it = some p) :
    p.source ≠ "" ∧ p.summary ≠ none := by
  unfold parseRepecItem at h
  iterate 5 (all_goals try split at h)
  all_goals try exact Option.noConfusion h
  all_goals
    injection h with h2
    subst h2
    refine ⟨?_, by simp⟩
    show repecSource code ≠ ""
    unfold repecSource
    exact append_ne_empty_left _ _ (append_ne_empty_left _ _ (by decide))

theorem mem_search_arxiv {now db : Int} {resp : Fetched ArxivEntry} {p : Paper}
    (hp : p ∈ search_arxiv now db resp) :
    ∃ e, parseArxivEntry (now - db) e = some p := by
  rcases resp with _ | ⟨status, body⟩
  · simp [search_arxiv] at hp
  · rcases body with _ | entries
    · by_cases hs : status = 200 <;> simp [search_arxiv, hs] at hp
    · by_cases hs : status = 200
      · simp only [search_arxiv, hs, if_pos] at hp
        obtain ⟨e, _, he⟩ := List.mem_filterMap.mp hp
        exact ⟨e, he⟩
      · simp [search_arxiv, hs] at hp

theorem mem_search_ssrn {resp : Fetched SsrnDiv} {mr : Nat} {p : Paper}
    (hp : p ∈ search_ssrn resp mr) :
    ∃ d, parseSsrnDiv d = some p := by
  rcases resp with _ | ⟨status, body⟩
  · simp [search_ssrn] at hp
  · rcases body with _ | divs
    · by_cases hs : status = 200 <;> simp [search_ssrn, hs] at hp
    · by_cases hs : status = 200
      · simp only [search_ssrn, hs, if_pos] at hp
        obtain ⟨d, _, hd⟩ := List.mem_filterMap.mp hp
        exact ⟨d, hd⟩
      · simp [search_ssrn, hs] at hp

theorem mem_repecSeriesPapers {fetch : String → Fetched RssItem} {code : String} {p : Paper}
    (hp : p ∈ repecSeriesPapers fetch code) :
    ∃ it, parseRepecItem code it = some p := by
  unfold repecSeriesPapers at hp
  rcases hf : fetch code with _ | ⟨status, body⟩ <;> rw [hf] at hp
  · simp at hp
  · rcases body with _ | items
    · by_cases hs : status = 200 <;> simp [hs] at hp
    · by_cases hs : status = 200
      · subst hs
        simp [List.mem_filterMap] at hp
        obtain ⟨it, _, hit⟩ := hp
        exact ⟨it, hit⟩
      · simp [hs] at hp

/-! ## Claim C1 -/

/-- Counterexample for claim C1: the HTML-listing adapter emits a record
whose `link` field is the empty string when the title anchor has no
`href` attribute (the default `''` is taken), instead of discarding the
item; so a partially-populated record does appear in the output. -/
theorem C1_counterexample :
    search_ssrn (some (200, some [{ titleElem := some { text := "Paper A", href := none },
                                    abstractElem := none }])) 50
      = [{ title := some "Paper A", summary := some "No abstract available",
           link := some "", source := "SSRN" }] := rfl

/-- Claim C1 (corrected): every record any adapter emits has a non-empty
`source` and a non-`None` `summary`, and an item whose required element
lookups raise is discarded; but non-emptiness of `title` and `link` is
not checked — a present-but-empty element or a missing `href` yields a
record with an empty or `None` title or link (see the counterexample).
Per adapter: arXiv records also have non-`None` title and summary; SSRN
records have non-`None` title, summary and link; RePEc records guarantee
only source and summary. -/
theorem C1_required_fields :
    (∀ (now db : Int) (resp : Fetched ArxivEntry) (p : Paper),
        p ∈ search_arxiv now db resp →
        p.source ≠ "" ∧ p.title ≠ none ∧ p.summary ≠ none)
    ∧ (∀ (resp : Fetched SsrnDiv) (mr : Nat) (p : Paper),
        p ∈ search_ssrn resp mr →
        p.source ≠ "" ∧ p.title ≠ none ∧ p.summary ≠ none ∧ p.link ≠ none)
    ∧ (∀ (fetch : String → Fetched RssItem) (db : Int) (p : Paper),
        p ∈ search_repec_working_papers fetch db →
        p.source ≠ "" ∧ p.summary ≠ none) := by
  refine ⟨?_, ?_, ?_⟩
  · intro now db resp p hp
    obtain ⟨e, he⟩ := mem_search_arxiv hp
    exact parseArxivEntry_fields he
  · intro resp mr p hp
    obtain ⟨d, hd⟩ := mem_search_ssrn hp
    obtain ⟨h1, h2, h3, h4, _, _⟩ := parseSsrnDiv_fields hd
    exact ⟨by rw [h1]; decide, h2, h3, h4⟩
  · intro fetch db p hp
    unfold search_repec_working_papers at hp
    obtain ⟨code, _, hmem⟩ := List.mem_flatMap.mp hp
    obtain ⟨it, hit⟩ := mem_repecSeriesPapers hmem
    exact parseRepecItem_fields hit

/-- Witness for C1: the amended field guarantees at one concrete record
of each adapter. -/
theorem C1_required_fields_witness :
    (({ title := some "T", summary := some "S", link := some "L", source := "arXiv (econ.GN)" }
        : Paper) ∈ search_arxiv (dateOrd (2024, 5, 10)) 7
          (some (200, some [{ published := some (some "2024-05-10"),
                              title := some (some "T"), summary := some (some "S"),
                              id := some (some "L"),
                              primaryCategoryTerm := some "econ.GN" }]))
      ∧ ("arXiv (econ.GN)" : String) ≠ "" ∧ (some "T" : Option String) ≠ none
      ∧ (some "S" : Option String) ≠ none)
    ∧ (({ title := some "Paper A", summary := some "No abstract available",
          link := some "", source := "SSRN" } : Paper)
        ∈ search_ssrn (some (200, some [{ titleElem := some { text := "Paper A", href := none },
                                          abstractElem := none }])) 50
      ∧ ("SSRN" : String) ≠ "")
    ∧ (({ title := some "T", summary := some "No abstract", link := some "L",
          source := "Working Paper (nberwo)" } : Paper)
        ∈ search_repec_working_papers
            (fun c => if c = "RePEc:nbr:nberwo" then
                some (200, some [{ title := some (some "T"), description := none,
                                   link := some (some "L") }])
              else none) 7
      ∧ ("Working Paper (nberwo)" : String) ≠ "") := by
  refine ⟨⟨by decide, ?_⟩, ⟨by decide, ?_⟩, ⟨by decide, ?_⟩⟩
  · have h := (C1_required_fields.1 (dateOrd (2024, 5, 10)) 7
      (some (200, some [{ published := some (some "2024-05-10"),
                          title := some (some "T"), summary := some (some "S"),
                          id := some (some "L"),
                          primaryCategoryTerm := some "econ.GN" }]))
      { title := some "T", summary := some "S", link := some "L", source := "arXiv (econ.GN)" }
      (by decide))
    exact h
  · exact (C1_required_fields.2.1
      (some (200, some [{ titleElem := some { text := "Paper A", href := none },
                          abstractElem := none }])) 50
      { title := some "Paper A", summary := some "No abstract available",
        link := some "", source := "SSRN" } (by decide)).1
  · exact (C1_required_fields.2.2
      (fun c => if c = "RePEc:nbr:nberwo" then
          some (200, some [{ title := some (some "T"), description := none,
                             link := some (some "L") }])
        else none) 7
      { title := some "T", summary := some "No abstract", link := some "L",
        source := "Working Paper (nberwo)" } (by decide)).1

/-! ## Claim C6 -/

/-- Counterexample for claim C6: an arXiv feed entry whose parsed publish
date lies inside the recency window but whose title element is missing is
not kept, so date recency alone is not equivalent to being kept (the
claimed equivalence fails in the if direction). -/
theorem C6_counterexample :
    strptimeYmd (pyTake "2024-05-03" 10) = some (2024, 5, 3)
    ∧ dateOrd (2024, 5, 3) ≥ 753054 - 7
    ∧ search_arxiv 753054 7
        (some (200, some [{ published := some (some "2024-05-03"), title := none,
                            summary := none, id := none,
                            primaryCategoryTerm := none }])) = [] :=
  ⟨rfl, by decide, rfl⟩

/-- Amended keep-condition, following the spec words plus extraction
success: the publish date parses and satisfies the window test, and the
title, summary and id elements are present with text (title and summary)
or present at all (id). -/
def arxivKept_spec (start_date : Int) (e : ArxivEntry) : Bool :=
  (match e.published with
   | some (some s) =>
     (match strptimeYmd (pyTake s 10) with
      | some ymd => decide (dateOrd ymd ≥ start_date)
      | none => false)
   | _ => false)
  && (match e.title with | some (some _) => true | _ => false)
  && (match e.summary with | some (some _) => true | _ => false)
  && e.id.isSome

/-- Claim C6 (corrected): within a successful response the API-query
adapter keeps a feed entry if and only if its publish date parses, the
parsed date satisfies `publish_date >= now - window`, AND the title,
summary and id extractions succeed; the recency test alone is necessary
but not sufficient (see the counterexample). -/
theorem C6_arxiv_window_filter :
    (∀ (sd : Int) (e : ArxivEntry), (parseArxivEntry sd e).isSome = arxivKept_spec sd e)
    ∧ (∀ (now db : Int) (entries : List ArxivEntry),
        search_arxiv now db (some (200, some entries))
          = entries.filterMap (parseArxivEntry (now - db))) := by
  constructor
  · intro sd e
    rcases e with ⟨pub, tit, summ, idT, cat⟩
    rcases pub with _ | (_ | pub)
    · simp [parseArxivEntry, arxivKept_spec]
    · simp [parseArxivEntry, arxivKept_spec]
    · rcases hst : strptimeYmd (pyTake pub 10) with _ | ymd
      · simp [parseArxivEntry, arxivKept_spec, hst]
      · by_cases hd : dateOrd ymd ≥ sd
        all_goals
          rcases tit with _ | (_ | tit) <;>
            rcases summ with _ | (_ | summ) <;>
              rcases idT with _ | idT <;>
                rcases cat with _ | cat <;>
                  simp [parseArxivEntry, arxivKept_spec, hst, hd]
  · intro now db entries
    rfl

/-! ## Claim C7 -/

/-- Counterexample for claim C7: an SSRN listing item that does expose an
abstract element yields a record whose `summary` is the abstract text,
not the fixed placeholder, and whose `authors` field is not populated at
all (no adapter ever sets it), so no institutional placeholder exists
either. -/
theorem C7_counterexample :
    search_ssrn (some (200, some [{ titleElem := some { text := "T", href := some "/p.cfm" },
                                    abstractElem := some { text := "An actual abstract." } }])) 50
      = [{ title := some "T", summary := some "An actual abstract.",
           link := some "https://papers.ssrn.com/p.cfm", source := "SSRN" }]
    ∧ (some "An actual abstract." : Option String) ≠ some "No abstract available"
    ∧ ({ title := some "T", summary := some "An actual abstract.",
         link := some "https://papers.ssrn.com/p.cfm", source := "SSRN" } : Paper).authors
        = none :=
  ⟨rfl, by decide, rfl⟩

/-- Claim C7 (corrected): an SSRN record's `summary` equals the fixed
placeholder only when the listing item has no abstract element, and
equals the stripped abstract text truncated to 500 characters otherwise;
no record carries any authors value (the `authors` key is never set, so
no institutional placeholder is used). -/
theorem C7_ssrn_summary_authors :
    ∀ (d : SsrnDiv) (p : Paper), parseSsrnDiv d = some p →
      p.authors = none
      ∧ p.summary = some (match d.abstractElem with
          | some ab => pyTake (pyStrip ab.text) 500
          | none => "No abstract available") := by
  intro d p h
  obtain ⟨_, _, _, _, h5, h6⟩ := parseSsrnDiv_fields h
  exact ⟨h5, h6⟩

/-- Witness for C7: the amended summary and authors facts at a concrete
listing item carrying an abstract element. -/
theorem C7_ssrn_summary_authors_witness :
    ({ title := some "T", summary := some "An actual abstract.",
       link := some "https://papers.ssrn.com/p.cfm", source := "SSRN" } : Paper).authors = none
    ∧ ({ title := some "T", summary := some "An actual abstract.",
         link := some "https://papers.ssrn.com/p.cfm", source := "SSRN" } : Paper).summary
        = some (match (({ titleElem := some { text := "T", href := some "/p.cfm" },
                          abstractElem := some { text := "An actual abstract." } }
                : SsrnDiv)).abstractElem with
            | some ab => pyTake (pyStrip ab.text) 500
            | none => "No abstract available") :=
  C7_ssrn_summary_authors
    { titleElem := some { text := "T", href := some "/p.cfm" },
      abstractElem := some { text := "An actual abstract." } }
    { title := some "T", summary := some "An actual abstract.",
      link := some "https://papers.ssrn.com/p.cfm", source := "SSRN" }
    (by decide)

/-! ## Claim C10 -/

theorem errorPrefix_ne_sentinel (e : String) :
    "Error with Gemini: " ++ e ≠ "No new papers found." := by
  intro h
  have hd : ("Error with Gemini: " ++ e).data = ("No new papers found." : String).data :=
    congrArg String.data h
  rw [data_append] at hd
  rw [show ("Error with Gemini: " : String).data
        = 'E' :: ("rror with Gemini: " : String).data from rfl,
      show ("No new papers found." : String).data
        = 'N' :: ("o new papers found." : String).data from rfl,
      List.cons_append] at hd
  injection hd with hh _
  exact absurd hh (by decide)

/-- Claim C10 (confirmed): the top-level run composes a digest only when
the aggregate is non-empty (the composer's empty-input short-circuit is
never reachable there); on an empty aggregate the email body is the
distinct fixed notice, which differs from the composer sentinel; and on a
non-empty aggregate the body can equal the sentinel text only if the
summarization collaborator itself returns exactly that text. -/
theorem C10_sentinel_never_sent :
    (∀ env : RunEnv, allPapers env = [] →
        (main_run true env).emailBody = some noPapersMsg)
    ∧ noPapersMsg ≠ "No new papers found."
    ∧ (∀ env : RunEnv, allPapers env ≠ [] →
        (main_run true env).emailBody
          = some (generate_summary env.llm (allPapers env) FOCUS)
        ∧ (allPapers env).isEmpty = false)
    ∧ (∀ (llm : String → Except String String) (papers : List Paper) (focus : String),
        papers ≠ [] →
        generate_summary llm papers focus = "No new papers found." →
        llm (promptTemplate focus (papersText papers)) = Except.ok "No new papers found.") := by
  refine ⟨?_, by decide, ?_, ?_⟩
  · intro env h
    unfold main_run
    split
    · simp_all
    · dsimp only
      rw [if_neg]
      simp [h]
  · intro env h
    have hne : (allPapers env).isEmpty = false := List.isEmpty_eq_false.mpr h
    constructor
    · unfold main_run
      split
      · simp_all
      · dsimp only
        rw [if_pos]
        simp [hne]
    · exact hne
  · intro llm papers focus hne h
    unfold generate_summary at h
    rw [if_neg (by simp [List.isEmpty_eq_false.mpr hne])] at h
    rcases hl : llm (promptTemplate focus (papersText papers)) with t | t <;>
      rw [hl] at h <;> dsimp only at h
    · exact absurd h (errorPrefix_ne_sentinel t)
    · rw [h]

/-- Witness for C10: the empty-aggregate branch at a concrete environment
whose sources all fail, and the collaborator-echo clause at a concrete
non-empty list with a collaborator returning exactly the sentinel text. -/
theorem C10_sentinel_never_sent_witness :
    (main_run true { now := 0, dateLong := "May 03, 2024", dateShort := "May 03",
                     arxivResp := none, ssrnResp := none, repecFetch := fun _ => none,
                     llm := fun _ => Except.error "x",
                     deliver := fun _ _ => Except.error "y" }).emailBody = some noPapersMsg
    ∧ ((fun _ => Except.ok "No new papers found.") :
          String → Except String String)
        (promptTemplate "F"
          (papersText [{ title := some "T", summary := some "S", link := some "L",
                         source := "SSRN" }]))
        = Except.ok "No new papers found." := by
  constructor
  · exact C10_sentinel_never_sent.1
      { now := 0, dateLong := "May 03, 2024", dateShort := "May 03",
        arxivResp := none, ssrnResp := none, repecFetch := fun _ => none,
        llm := fun _ => Except.error "x",
        deliver := fun _ _ => Except.error "y" } rfl
  · exact C10_sentinel_never_sent.2.2.2
      (fun _ => Except.ok "No new papers found.")
      [{ title := some "T", summary := some "S", link := some "L", source := "SSRN" }]
      "F" (by simp) rfl
